import Mathlib

/-!
Verification of the `LCD_Display` wrapper class from `src/SpineTester/LCD.hpp`.

The wrapper owns a single `LiquidCrystal_I2C` driver object and forwards
calls to it.  The driver library itself is a third-party dependency that is
not part of this repository, so it is modelled abstractly: a driver object
carries its construction-time configuration (I2C address, column count, row
count) together with the trace of commands it has received.  Each wrapper
method is embedded as a pure state transformer on the wrapper, translated
line by line from the C++ source.
-/

/-- A single call made to the underlying driver library, with the exact
argument values the wrapper passed. -/
inductive DriverCall where
  | init : DriverCall
  | backlight : DriverCall
  | setCursor : Int → Int → DriverCall
  | print : String → DriverCall
  | clear : DriverCall
  | write : Char → DriverCall
deriving DecidableEq, Repr

/-- Modelled from the spec: the third-party `LiquidCrystal_I2C` driver is not
part of this repository.  Per the spec it holds configuration constants
(I2C address, column count, row count) fixed at construction; its mutable
internals (cursor, screen, backlight state) are opaque and are represented
here by the trace of commands the driver has received. -/
structure LiquidCrystal_I2C where
  addr : Nat
  cols : Nat
  rows : Nat
  received : List DriverCall
deriving DecidableEq, Repr

namespace LiquidCrystal_I2C

/-- Modelled from the spec: constructing the driver at a given address and
grid geometry; no commands have been received yet. -/
def construct (addr cols rows : Nat) : LiquidCrystal_I2C :=
  ⟨addr, cols, rows, []⟩

/-- Modelled from the spec: a driver method call records the command, with
its exact arguments, on the driver's trace; the configuration constants are
untouched. -/
def send (l : LiquidCrystal_I2C) (c : DriverCall) : LiquidCrystal_I2C :=
  { l with received := l.received ++ [c] }

/-- Modelled from the spec: `lcd.init()`. -/
def init (l : LiquidCrystal_I2C) : LiquidCrystal_I2C :=
  l.send .init

/-- Modelled from the spec: `lcd.backlight()`. -/
def backlight (l : LiquidCrystal_I2C) : LiquidCrystal_I2C :=
  l.send .backlight

/-- Modelled from the spec: `lcd.setCursor(x, y)`. -/
def setCursor (l : LiquidCrystal_I2C) (x y : Int) : LiquidCrystal_I2C :=
  l.send (.setCursor x y)

/-- Modelled from the spec: `lcd.print(message)`. -/
def print (l : LiquidCrystal_I2C) (s : String) : LiquidCrystal_I2C :=
  l.send (.print s)

/-- Modelled from the spec: `lcd.clear()`. -/
def clear (l : LiquidCrystal_I2C) : LiquidCrystal_I2C :=
  l.send .clear

/-- Modelled from the spec: `lcd.write(character)`. -/
def write (l : LiquidCrystal_I2C) (c : Char) : LiquidCrystal_I2C :=
  l.send (.write c)

/-- The construction-time configuration of a driver object. -/
def config (l : LiquidCrystal_I2C) : Nat × Nat × Nat :=
  (l.addr, l.cols, l.rows)

end LiquidCrystal_I2C

/-- Modelled from the spec: `vsnprintf(buffer, size, format, args)` from the
C library (not part of this repository) performs printf-style formatting of
the arguments, writing at most `size - 1` characters into the buffer followed
by a null terminator.  The untruncated printf-formatted text is taken as the
input `formatted`; the resulting buffer content is its truncation to
`size - 1` characters. -/
def vsnprintf (size : Nat) (formatted : String) : String :=
  String.mk (formatted.data.take (size - 1))

/-- The wrapper class from `src/SpineTester/LCD.hpp`: its only data member is
the owned driver object `lcd`. -/
structure LCD_Display where
  lcd : LiquidCrystal_I2C
deriving DecidableEq, Repr

namespace LCD_Display

/-- `LCD_Display() : lcd(0x27, 20, 4) {}` -/
def construct : LCD_Display :=
  ⟨LiquidCrystal_I2C.construct 0x27 20 4⟩

/-- `LiquidCrystal_I2C get_lcd() { return lcd; }` — returns the member by
value; the pair carries the returned copy and the wrapper afterwards. -/
def get_lcd (d : LCD_Display) : LiquidCrystal_I2C × LCD_Display :=
  (d.lcd, d)

/-- `void init_display() { lcd.init(); lcd.backlight(); }` -/
def init_display (d : LCD_Display) : LCD_Display :=
  ⟨(d.lcd.init).backlight⟩

/-- `void print(int x, int y, const char* message)` -/
def print (d : LCD_Display) (x y : Int) (message : String) : LCD_Display :=
  ⟨(d.lcd.setCursor x y).print message⟩

/-- `void clear() { lcd.clear(); }` -/
def clear (d : LCD_Display) : LCD_Display :=
  ⟨d.lcd.clear⟩

/-- `void set_cursor(int x, int y) { lcd.setCursor(x, y); }` -/
def set_cursor (d : LCD_Display) (x y : Int) : LCD_Display :=
  ⟨d.lcd.setCursor x y⟩

/-- `void print(const char* message) { lcd.print(message); }` — the
single-argument overload of `print`. -/
def print_msg (d : LCD_Display) (message : String) : LCD_Display :=
  ⟨d.lcd.print message⟩

/-- `void writeString(int x, int y, const char* format, ...)`: formats the
varargs into a 128-byte local buffer with `vsnprintf`, then sets the cursor
and prints the buffer.  The printf-formatted text of the varargs is the input
`formatted`. -/
def writeString (d : LCD_Display) (x y : Int) (formatted : String) : LCD_Display :=
  let buffer := vsnprintf 128 formatted
  ⟨(d.lcd.setCursor x y).print buffer⟩

/-- `void write(char character) { lcd.write(character); }` -/
def write (d : LCD_Display) (character : Char) : LCD_Display :=
  ⟨d.lcd.write character⟩

/-- The public members of `LCD_Display` exactly as declared in
`src/SpineTester/LCD.hpp`, in source order. -/
def publicOperations : List String :=
  ["LCD_Display()", "get_lcd()", "init_display()", "print(x,y,msg)",
   "clear()", "set_cursor(x,y)", "print(msg)", "writeString(x,y,format,...)",
   "write(char)"]

end LCD_Display

/-- Modelled from the spec: the list of operations Section 6 of the spec
claims the class exposes, in the spec's order. -/
def specOperations : List String :=
  ["init_display()", "print(x,y,msg)", "print(msg)", "clear()",
   "set_cursor(x,y)", "writeString(x,y,format,...)", "write(char)"]

/-- A 128-character text, long enough to overflow the 128-byte buffer of
`writeString` (which holds at most 127 characters plus the terminator). -/
def longText : String := String.mk (List.replicate 128 'a')

/-! ## Theorems for the claims -/

/-- C1 (counterexample): the claim that every public method passes the
driver calls exactly the argument values it received is false for
`writeString`: with a 128-character formatted text, the string handed to the
driver's print is the 127-character truncation, not the received text. -/
theorem C1_counterexample :
    (LCD_Display.construct.writeString 0 0 longText).lcd.received ≠
      LCD_Display.construct.lcd.received ++
        [DriverCall.setCursor 0 0, DriverCall.print longText] := by
  decide

/-- C1 (amended): every public method except `writeString` forwards its
arguments to the driver unchanged, with at most cursor-position bookkeeping;
`writeString` forwards `x` and `y` unchanged but passes the printf-formatted
text of its varargs truncated to 127 characters, not a raw received value.
`get_lcd` makes no driver call and leaves the wrapper unchanged. -/
theorem C1_forwarding (d : LCD_Display) (x y : Int) (msg f : String) (c : Char) :
    d.init_display.lcd.received
        = d.lcd.received ++ [DriverCall.init, DriverCall.backlight] ∧
    (d.print x y msg).lcd.received
        = d.lcd.received ++ [DriverCall.setCursor x y, DriverCall.print msg] ∧
    d.clear.lcd.received = d.lcd.received ++ [DriverCall.clear] ∧
    (d.set_cursor x y).lcd.received
        = d.lcd.received ++ [DriverCall.setCursor x y] ∧
    (d.print_msg msg).lcd.received = d.lcd.received ++ [DriverCall.print msg] ∧
    (d.writeString x y f).lcd.received
        = d.lcd.received
            ++ [DriverCall.setCursor x y, DriverCall.print (vsnprintf 128 f)] ∧
    (d.write c).lcd.received = d.lcd.received ++ [DriverCall.write c] ∧
    (d.get_lcd).2 = d := by
  refine ⟨?_, ?_, ?_, ?_, ?_, ?_, ?_, rfl⟩ <;>
    simp [LCD_Display.init_display, LCD_Display.print, LCD_Display.clear,
      LCD_Display.set_cursor, LCD_Display.print_msg, LCD_Display.writeString,
      LCD_Display.write, LiquidCrystal_I2C.init, LiquidCrystal_I2C.backlight,
      LiquidCrystal_I2C.setCursor, LiquidCrystal_I2C.print,
      LiquidCrystal_I2C.clear, LiquidCrystal_I2C.write,
      LiquidCrystal_I2C.send]

/-- C2: `print(x, y, msg)` invokes the driver's cursor-set with exactly
`(x, y)` and then the driver's print with exactly `msg`, in that order,
arguments unchanged. -/
theorem C2_print_xy (d : LCD_Display) (x y : Int) (msg : String) :
    (d.print x y msg).lcd.received
      = d.lcd.received ++ [DriverCall.setCursor x y, DriverCall.print msg] := by
  simp [LCD_Display.print, LiquidCrystal_I2C.setCursor,
    LiquidCrystal_I2C.print, LiquidCrystal_I2C.send]

/-- C3: `writeString(x, y, format, ...)` formats into a 128-byte buffer
(`vsnprintf 128`) before anything is sent, then sets the cursor to `(x, y)`
and prints the buffer content. -/
theorem C3_writeString (d : LCD_Display) (x y : Int) (f : String) :
    (d.writeString x y f).lcd.received
      = d.lcd.received
          ++ [DriverCall.setCursor x y, DriverCall.print (vsnprintf 128 f)] := by
  simp [LCD_Display.writeString, LiquidCrystal_I2C.setCursor,
    LiquidCrystal_I2C.print, LiquidCrystal_I2C.send]

/-- C4: no bounds checking on cursor coordinates: for every `Int` pair
`(x, y)`, including values outside the 20-by-4 grid, `set_cursor`, `print`
and `writeString` pass `x` and `y` to the driver unmodified and unclamped;
the operations are total functions on the wrapper state, so no error is ever
signalled. -/
theorem C4_no_bounds_check (d : LCD_Display) (x y : Int) (msg f : String) :
    (d.set_cursor x y).lcd.received
        = d.lcd.received ++ [DriverCall.setCursor x y] ∧
    (d.print x y msg).lcd.received
        = d.lcd.received ++ [DriverCall.setCursor x y, DriverCall.print msg] ∧
    (d.writeString x y f).lcd.received
        = d.lcd.received
            ++ [DriverCall.setCursor x y, DriverCall.print (vsnprintf 128 f)] := by
  refine ⟨?_, ?_, ?_⟩ <;>
    simp [LCD_Display.set_cursor, LCD_Display.print, LCD_Display.writeString,
      LiquidCrystal_I2C.setCursor, LiquidCrystal_I2C.print,
      LiquidCrystal_I2C.send]

/-- C5: truncation is silent: when the formatted text exceeds 127 characters,
`writeString` prints exactly the 127-character truncation (a string different
from the full text), returns the fully determined new wrapper state normally,
and exposes no return value or error state indicating truncation. -/
theorem C5_silent_truncation (d : LCD_Display) (x y : Int) (f : String)
    (h : 127 < f.length) :
    (d.writeString x y f).lcd.received
        = d.lcd.received
            ++ [DriverCall.setCursor x y,
                DriverCall.print (String.mk (f.data.take 127))] ∧
    String.mk (f.data.take 127) ≠ f := by
  constructor
  · simp [LCD_Display.writeString, vsnprintf, LiquidCrystal_I2C.setCursor,
      LiquidCrystal_I2C.print, LiquidCrystal_I2C.send]
  · intro hEq
    have hd : f.data.take 127 = f.data := congrArg String.data hEq
    have hlen : (f.data.take 127).length = f.data.length := by rw [hd]
    rw [List.length_take] at hlen
    have hfl : f.length = f.data.length := rfl
    omega

set_option maxRecDepth 4000 in
/-- C5 witness: a concrete 128-character formatted text overflowing the
buffer. -/
theorem C5_witness :
    127 < longText.length ∧
    ((LCD_Display.construct.writeString 0 0 longText).lcd.received
        = LCD_Display.construct.lcd.received
            ++ [DriverCall.setCursor 0 0,
                DriverCall.print (String.mk (longText.data.take 127))] ∧
     String.mk (longText.data.take 127) ≠ longText) :=
  ⟨by decide, C5_silent_truncation LCD_Display.construct 0 0 longText (by decide)⟩

/-- C6: the configuration constants are fixed at construction — address
`0x27`, 20 columns, 4 rows — and every operation leaves the driver's address
and grid geometry unchanged. -/
theorem C6_config_fixed (d : LCD_Display) (x y : Int) (msg f : String) (c : Char) :
    LCD_Display.construct.lcd.config = (0x27, 20, 4) ∧
    d.init_display.lcd.config = d.lcd.config ∧
    (d.print x y msg).lcd.config = d.lcd.config ∧
    d.clear.lcd.config = d.lcd.config ∧
    (d.set_cursor x y).lcd.config = d.lcd.config ∧
    (d.writeString x y f).lcd.config = d.lcd.config ∧
    (d.write c).lcd.config = d.lcd.config ∧
    (d.print_msg msg).lcd.config = d.lcd.config := by
  refine ⟨rfl, ?_, ?_, ?_, ?_, ?_, ?_, ?_⟩ <;> rfl

/-- C7 (counterexample): the claim that the listed seven operations are the
whole public interface is false: `get_lcd()` is a public member of the class
and is absent from the spec's list. -/
theorem C7_counterexample :
    "get_lcd()" ∈ LCD_Display.publicOperations ∧
    "get_lcd()" ∉ specOperations := by
  decide

/-- C7 (amended): the public operations are exactly the seven the spec lists
plus `get_lcd()` and the implicitly public default constructor. -/
theorem C7_interface :
    List.Perm LCD_Display.publicOperations
      ("LCD_Display()" :: "get_lcd()" :: specOperations) := by
  decide

/-- C8: there is no mutable state beyond the owned driver handle: each
operation produces a wrapper whose single `lcd` member is a function of the
previous `lcd` member alone, so every effect on the wrapper object is
confined to that member. -/
theorem C8_frame (d : LCD_Display) (x y : Int) (msg f : String) (c : Char) :
    d.init_display = ⟨d.lcd.init.backlight⟩ ∧
    d.print x y msg = ⟨(d.lcd.setCursor x y).print msg⟩ ∧
    d.clear = ⟨d.lcd.clear⟩ ∧
    d.set_cursor x y = ⟨d.lcd.setCursor x y⟩ ∧
    d.print_msg msg = ⟨d.lcd.print msg⟩ ∧
    d.writeString x y f = ⟨(d.lcd.setCursor x y).print (vsnprintf 128 f)⟩ ∧
    d.write c = ⟨d.lcd.write c⟩ ∧
    d.get_lcd = (d.lcd, d) :=
  ⟨rfl, rfl, rfl, rfl, rfl, rfl, rfl, rfl⟩

/-- C9: `get_lcd` returns the owned driver object by value: the call leaves
the wrapper unchanged, the returned value is the member's value, and applying
any mutation `m` to the returned copy acts on that copy while the wrapper's
`lcd` member afterwards is still the original. -/
theorem C9_get_lcd_copy (d : LCD_Display)
    (m : LiquidCrystal_I2C → LiquidCrystal_I2C) :
    (d.get_lcd).2 = d ∧
    (d.get_lcd).1 = d.lcd ∧
    (m (d.get_lcd).1, ((d.get_lcd).2).lcd) = (m d.lcd, d.lcd) :=
  ⟨rfl, rfl, rfl⟩

/-- C10: the string `writeString` hands to the driver's print is the
`vsnprintf`-bounded buffer content, at most 127 characters (the 128-byte
buffer holds 127 characters plus the null terminator), so the wrapper never
writes past the buffer. -/
theorem C10_bounded (d : LCD_Display) (x y : Int) (f : String) :
    (vsnprintf 128 f).length ≤ 127 ∧
    (d.writeString x y f).lcd.received
      = d.lcd.received
          ++ [DriverCall.setCursor x y, DriverCall.print (vsnprintf 128 f)] := by
  constructor
  · show (f.data.take 127).length ≤ 127
    rw [List.length_take]
    exact min_le_left _ _
  · simp [LCD_Display.writeString, LiquidCrystal_I2C.setCursor,
      LiquidCrystal_I2C.print, LiquidCrystal_I2C.send]
